import Mathlib

/-!
Shallow embedding of `src/main.py` ("AI Starter Quest"): the Gemini hint
client (`gemini_reply`, lines 46-84) and the dialogue engine
(`render_module_1/2/3`, `route`, lines 169-299) together with the session
state fields they mutate (`init_state`, lines 103-111, and the helpers
`badge` and `progress_to`, lines 144-148).

Python strings become `String`; the per-session dict `gemini_cache` becomes
an association list with dict-style insert; wall-clock times (`time.time()`)
become `ℚ`; the external Gemini call becomes an explicit `ProviderOutcome`
argument (what the provider would do if invoked), and the result records
whether the provider was actually invoked.
-/

namespace GamefiedFlow

/-- Python `needle in hay` on the underlying character lists:
`true` iff `needle` occurs as a contiguous substring. -/
def strContainsAux (needle : List Char) : List Char → Bool
  | [] => needle.isPrefixOf []
  | c :: t => needle.isPrefixOf (c :: t) || strContainsAux needle t

/-- Python `needle in hay` for strings. -/
def strContains (hay needle : String) : Bool :=
  strContainsAux needle.data hay.data

/-- Whitespace characters stripped by Python `str.strip()` (the ones that
can occur in chat input). -/
def isSpaceChar (c : Char) : Bool :=
  c = ' ' || c = '\t' || c = '\n' || c = '\r'

/-- Python `str.strip()`: drop leading and trailing whitespace. -/
def pyStrip (s : String) : String :=
  String.mk (((s.data.dropWhile fun c => isSpaceChar c).reverse.dropWhile
    fun c => isSpaceChar c).reverse)

/-- ASCII lower-casing of one character, as Python `str.lower()` acts on
the ASCII range (every comparison in the source is against an ASCII
literal). -/
def pyLowerChar (c : Char) : Char :=
  if 65 ≤ c.toNat ∧ c.toNat ≤ 90 then Char.ofNat (c.toNat + 32) else c

/-- ASCII upper-casing of one character, as Python `str.upper()` acts on
the ASCII range. -/
def pyUpperChar (c : Char) : Char :=
  if 97 ≤ c.toNat ∧ c.toNat ≤ 122 then Char.ofNat (c.toNat - 32) else c

/-- Python `str.lower()` (ASCII case folding). -/
def pyLower (s : String) : String :=
  String.mk (s.data.map pyLowerChar)

/-- Python `str.upper()` (ASCII case folding). -/
def pyUpper (s : String) : String :=
  String.mk (s.data.map pyUpperChar)

/-- Python `int(x)` on a rational: truncation toward zero. -/
def pyInt (q : ℚ) : ℤ :=
  if q < 0 then -Rat.floor (-q) else Rat.floor q

/-- `HINT_COOLDOWN_SEC = 30` (main.py line 23). -/
def HINT_COOLDOWN_SEC : ℚ := 30

/-- `AI_COACH_ENABLED = False` (main.py line 20): auto coaching lines are off. -/
def AI_COACH_ENABLED : Bool := false

/-- Lookup in the session cache dict (first binding for the key). -/
def cacheLookup (key : String) : List (String × String) → Option String
  | [] => none
  | (k, v) :: t => if k = key then some v else cacheLookup key t

/-- Python dict assignment `cache[key] = val`: replace the binding if the
key is present, otherwise append it. -/
def cacheInsert (key val : String) : List (String × String) → List (String × String)
  | [] => [(key, val)]
  | (k, v) :: t => if k = key then (k, val) :: t else (k, v) :: cacheInsert key val t

/-- The session-state fields read and written by `gemini_reply`
(`gemini_cache`, `gemini_ready`, `next_hint_ok_ts`). -/
structure AIState where
  gemini_cache : List (String × String)
  gemini_ready : Bool
  next_hint_ok_ts : ℚ
  deriving Repr, DecidableEq

/-- What the external Gemini call would do if it were issued: return text,
or raise an exception whose string form is `msg` (main.py lines 69-76). -/
inductive ProviderOutcome where
  | success (text : String)
  | failure (msg : String)
  deriving Repr, DecidableEq

/-- Result of `gemini_reply`: the returned string, the updated session
state, and whether the external provider was actually invoked. -/
structure GeminiResult where
  text : String
  state : AIState
  invoked : Bool
  deriving Repr, DecidableEq

/-- Python `cache_key or prompt` (main.py line 51): `None` and the empty
string are both falsy, so either falls back to `prompt`. -/
def effKey (cache_key : Option String) (prompt : String) : String :=
  match cache_key with
  | some k => if k = "" then prompt else k
  | none => prompt

/-- `gemini_reply(prompt, temp, cache_key)` (main.py lines 46-84).
`provider` is the outcome the external call would have (it is consulted
only on the path that reaches the `try` block), `now` is `time.time()`.
The `temp` argument is forwarded to the provider and does not affect
control flow. -/
def gemini_reply (provider : ProviderOutcome) (now : ℚ) (prompt : String)
    (temp : ℚ) (cache_key : Option String) (s : AIState) : GeminiResult :=
  let key := effKey cache_key prompt
  match cacheLookup key s.gemini_cache with
  | some v => ⟨v, s, false⟩
  | none =>
    if s.gemini_ready = false then
      ⟨"(Hint unavailable: Gemini key not configured.)", s, false⟩
    else
      let next_ok := s.next_hint_ok_ts
      if now < next_ok then
        let wait := pyInt (next_ok - now)
        ⟨"(Cooling down " ++ toString wait ++ "s to respect free-tier limits…)", s, false⟩
      else
        match provider with
        | .success t =>
          let text := if pyStrip t = "" then "(No response from Gemini.)" else pyStrip t
          let s := { s with next_hint_ok_ts := now + HINT_COOLDOWN_SEC }
          ⟨text, { s with gemini_cache := cacheInsert key text s.gemini_cache }, true⟩
        | .failure msg =>
          if strContains msg "429" || strContains (pyLower msg) "rate" then
            let text := "(Free-tier limit hit; showing a built-in hint.)"
            let s := { s with next_hint_ok_ts := now + HINT_COOLDOWN_SEC }
            ⟨text, { s with gemini_cache := cacheInsert key text s.gemini_cache }, true⟩
          else
            let text := "(Gemini error: " ++ msg ++ ")"
            ⟨text, { s with gemini_cache := cacheInsert key text s.gemini_cache }, true⟩

/-- The dialogue-engine session-state fields (main.py lines 103-109).
`gemini_ready`/`gemini_model` and the hint-client fields live in `AIState`;
the dialogue handlers' references to them are all guarded by
`AI_COACH_ENABLED`, which is `False`, so they never interact here. -/
structure SessionState where
  progress : Nat
  badges : List String
  module : Nat
  messages : List (String × String)
  quiz_correct : Nat
  email_captured : Bool
  deriving Repr, DecidableEq

/-- `init_state()` defaults (main.py lines 103-109). -/
def init_state : SessionState :=
  { progress := 0
    badges := []
    module := 0
    messages := []
    quiz_correct := 0
    email_captured := false }

/-- `badge(name, emoji)` (main.py lines 144-147): append the label
`f"{emoji} {name}"` unless it is already present. -/
def badge (name emoji : String) (s : SessionState) : SessionState :=
  let label := emoji ++ " " ++ name
  if label ∈ s.badges then s else { s with badges := s.badges ++ [label] }

/-- `progress_to(p)` (main.py line 148): raise progress to `max(progress, p)`. -/
def progress_to (p : Nat) (s : SessionState) : SessionState :=
  { s with progress := max s.progress p }

/-- `st.session_state.messages.append({"role": r, "content": c})`. -/
def addMsg (role content : String) (s : SessionState) : SessionState :=
  { s with messages := s.messages ++ [(role, content)] }

/-- Number of filled/empty stars: `'★'*n` etc. (main.py lines 279-280). -/
def stars (c : Char) (n : Nat) : String :=
  String.mk (List.replicate n c)

/-- Report-card line `f"- Concepts: {'★'*min(5,3+qc)}{'☆'*max(0,5-(3+qc))}"`
(main.py line 279), with Python's signed arithmetic made explicit in `ℤ`. -/
def conceptsLine (qc : Nat) : String :=
  "- Concepts: " ++ stars '★' (min 5 (3 + qc)) ++
    stars '☆' (Int.toNat (max 0 (5 - (3 + (qc : ℤ)))))

/-- Report-card line `f"- Prompt Craft: {'★'*min(5,2+qc)}{'☆'*max(0,5-(2+qc))}"`
(main.py line 280). -/
def promptCraftLine (qc : Nat) : String :=
  "- Prompt Craft: " ++ stars '★' (min 5 (2 + qc)) ++
    stars '☆' (Int.toNat (max 0 (5 - (2 + (qc : ℤ)))))

/-- `render_module_1(user_text)` (main.py lines 169-216). The two
AI-coaching asides (lines 183-188 and 198-211) are guarded by
`AI_COACH_ENABLED and st.session_state.get("gemini_ready")`; since
`AI_COACH_ENABLED` is the literal `False` (line 20) those branches are
unreachable and perform no state change here. -/
def render_module_1 (user_text : String) (s : SessionState) : String × SessionState :=
  let txt := pyLower (pyStrip user_text)
  if txt ∈ ["hi", "hello", "hey", "yo", "hola", "help", "start"] then
    ("Hi! 👋 Type **begin** to start Module 1.", s)
  else if txt = "begin" then
    let s := badge "Concept Spark" "🏅" (progress_to 20 s)
    ("### Module 1: What is AI?\nAI helps computers perform tasks like pattern recognition, prediction, and content generation.\n\n**Checkpoint:** Name one everyday example of AI you've used or seen.", s)
  else if ["netflix", "spotify", "recommend", "maps", "autocorrect",
      "autocomplete", "youtube"].any (fun k => strContains txt k) then
    let s := progress_to 40 s
    ("Nice! ✅ Recommendation engines (like Netflix/Spotify) are classic AI.\n\n**Mini-Quiz:** Which statement is MOST accurate?\nA) AI is one algorithm.\nB) AI is a field with many methods, such as machine learning.\nC) AI is magic.\n\n_Reply with A, B, or C._", s)
  else if pyUpper txt ∈ ["A", "B", "C"] then
    let s := if pyUpper txt = "B" then { s with quiz_correct := s.quiz_correct + 1 } else s
    let msg := if pyUpper txt = "B" then "Correct! 🎉" else "Good try — the best answer is **B**."
    let s := { progress_to 50 s with module := 2 }
    (msg ++ "\n\n**Progress saved.** Moving to **Module 2: Prompting Basics**.\nType anything to continue.", s)
  else
    ("Type **begin** to start the course, or say something like `Netflix recommendations` for the checkpoint.", s)

/-- `render_module_2(user_text)` (main.py lines 218-247). The rubric
review (lines 229-232) is guarded by `AI_COACH_ENABLED` (`False`), so it is
unreachable; the two tutor messages in the A/B branch (lines 241 and 243)
are unconditional and are modelled. -/
def render_module_2 (user_text : String) (s : SessionState) : String × SessionState :=
  if s.progress < 60 then
    let s := badge "Prompt Explorer" "🔎" (progress_to 60 s)
    ("### Module 2: Prompting Basics\nGood prompts are **clear**, **contextual**, and **goal-oriented**.\n\n**Task:** Rewrite this weak prompt to be specific.\n_Weak_: `Write marketing ideas.`\nInclude audience, tone, and format.", s)
  else
    let attempt := pyStrip user_text
    if attempt ≠ "" ∧ pyUpper attempt ∉ ["A", "B"] then
      let s := progress_to 80 s
      ("**Quick Check:** Which prompt yields structured output?\nA) `Write about AI.`\nB) `Create a 5-step checklist for starting with AI at a small bakery, numbered list.`\n\n_Reply with A or B._", s)
    else if pyUpper attempt ∈ ["A", "B"] then
      let s :=
        if pyUpper attempt = "B" then
          addMsg "assistant" "**Tutor:** Great pick — numbered steps create structure."
            { s with quiz_correct := s.quiz_correct + 1 }
        else
          addMsg "assistant" "**Tutor:** Close. Asking for numbered steps (B) yields a tidy result." s
      let s := progress_to 85 { s with module := 3 }
      ("Moving to **Module 3: Hands-On**. Type anything to continue.", s)
    else
      ("Try adding audience, tone, and format (e.g., Instagram posts, friendly tone, bullet list).", s)

/-- `render_module_3(user_text)` (main.py lines 249-286). The tutor tip
(lines 266-269) is guarded by `gemini_ready and AI_COACH_ENABLED`
(`False`), so `hint` keeps its initial value `""`. -/
def render_module_3 (user_text : String) (s : SessionState) : String × SessionState :=
  if s.progress < 90 then
    let s := badge "AI Tinkerer" "🛠️" (progress_to 90 s)
    ("### Module 3: Hands-On Practice\nPick a quick exercise (reply with 1, 2, or 3):\n1) Content — 5 product ideas using AI\n2) Customer Support — empathetic reply to a delay complaint\n3) Data — 3 ways AI can save time in spreadsheets", s)
  else
    let choice := pyStrip user_text
    if choice ∈ ["1", "2", "3"] then
      let s := progress_to 95 s
      let prompt :=
        if choice = "1" then "Generate 5 product ideas for eco-friendly kitchen tools."
        else if choice = "2" then "Write a brief, empathetic apology for a delayed order; offer options to resolve."
        else "List 3 spreadsheet automations (cleaning, categorizing, summarizing)."
      let hint := ""
      ("Great choice! Try this: **" ++ prompt ++ "**" ++ hint ++ "\n\n_When you're done, type `done`._", s)
    else if pyLower choice = "done" then
      let s := progress_to 100 s
      ("👏 Nicely done. You've completed the free track!\n\n## 🔒 Locked Level: Applied AI Playbooks\n- 12 advanced prompt frameworks\n- Case studies + templates\n- Certificate + full Report Card\n\n👉 **Unlock via the AI Learning Academy:** [Enroll to unlock](https://example.com/enroll)\n\n### Report Card (Preview)\n" ++
        conceptsLine s.quiz_correct ++ "\n" ++ promptCraftLine s.quiz_correct ++
        "\n- Applied Practice: ★★★☆☆\n- Consistency: ★★☆☆☆\n\n_Enter your email to receive your badges + preview report & a limited-time coupon._", s)
    else
      ("Reply with `1`, `2`, or `3` to pick an exercise, then type `done` when finished.", s)

/-- `route(user_text)` (main.py lines 288-299). -/
def route (user_text : String) (s : SessionState) : String × SessionState :=
  let m := s.module
  if m = 0 then
    render_module_1 user_text { s with module := 1 }
  else if m = 1 then
    render_module_1 user_text s
  else if m = 2 then
    render_module_2 user_text s
  else if m = 3 then
    render_module_3 user_text s
  else
    ("Say **begin** to start.", s)

/-- The session state after feeding a sequence of chat inputs through
`route`, starting from the fresh session of `init_state`. -/
def run (inputs : List String) : SessionState :=
  inputs.foldl (fun s t => (route t s).2) init_state


/-! ### Helper lemmas: field projections of the state-update helpers -/

@[simp] theorem progress_to_progress (p : Nat) (s : SessionState) :
    (progress_to p s).progress = max s.progress p := rfl

@[simp] theorem progress_to_badges (p : Nat) (s : SessionState) :
    (progress_to p s).badges = s.badges := rfl

@[simp] theorem progress_to_module (p : Nat) (s : SessionState) :
    (progress_to p s).module = s.module := rfl

@[simp] theorem progress_to_quiz (p : Nat) (s : SessionState) :
    (progress_to p s).quiz_correct = s.quiz_correct := rfl

@[simp] theorem badge_progress (n e : String) (s : SessionState) :
    (badge n e s).progress = s.progress := by
  unfold badge; dsimp only; split <;> rfl

@[simp] theorem badge_module (n e : String) (s : SessionState) :
    (badge n e s).module = s.module := by
  unfold badge; dsimp only; split <;> rfl

@[simp] theorem badge_quiz (n e : String) (s : SessionState) :
    (badge n e s).quiz_correct = s.quiz_correct := by
  unfold badge; dsimp only; split <;> rfl

@[simp] theorem addMsg_progress (r c : String) (s : SessionState) :
    (addMsg r c s).progress = s.progress := rfl

@[simp] theorem addMsg_badges (r c : String) (s : SessionState) :
    (addMsg r c s).badges = s.badges := rfl

@[simp] theorem addMsg_module (r c : String) (s : SessionState) :
    (addMsg r c s).module = s.module := rfl

@[simp] theorem addMsg_quiz (r c : String) (s : SessionState) :
    (addMsg r c s).quiz_correct = s.quiz_correct := rfl

theorem badge_nodup (n e : String) (s : SessionState) (h : s.badges.Nodup) :
    (badge n e s).badges.Nodup := by
  unfold badge; dsimp only; split
  · exact h
  · next hmem => simp [List.nodup_append, h, hmem]

/-! ### Helper lemmas: per-handler facts -/

theorem render_module_1_progress (t : String) (s : SessionState) :
    s.progress ≤ (render_module_1 t s).2.progress ∧
      (render_module_1 t s).2.progress ≤ max s.progress 100 := by
  unfold render_module_1
  dsimp only
  repeat' split
  all_goals simp
  all_goals omega

theorem render_module_2_progress (t : String) (s : SessionState) :
    s.progress ≤ (render_module_2 t s).2.progress ∧
      (render_module_2 t s).2.progress ≤ max s.progress 100 := by
  unfold render_module_2
  dsimp only
  repeat' split
  all_goals simp
  all_goals omega

theorem render_module_3_progress (t : String) (s : SessionState) :
    s.progress ≤ (render_module_3 t s).2.progress ∧
      (render_module_3 t s).2.progress ≤ max s.progress 100 := by
  unfold render_module_3
  dsimp only
  repeat' split
  all_goals simp
  all_goals omega

theorem route_progress (t : String) (s : SessionState) :
    s.progress ≤ (route t s).2.progress ∧
      (route t s).2.progress ≤ max s.progress 100 := by
  unfold route
  dsimp only
  repeat' split
  · exact render_module_1_progress t { s with module := 1 }
  · exact render_module_1_progress t s
  · exact render_module_2_progress t s
  · exact render_module_3_progress t s
  · simp

theorem render_module_1_module (t : String) (s : SessionState) :
    (render_module_1 t s).2.module = s.module ∨ (render_module_1 t s).2.module = 2 := by
  unfold render_module_1
  dsimp only
  repeat' split
  all_goals simp

theorem render_module_2_module (t : String) (s : SessionState) :
    (render_module_2 t s).2.module = s.module ∨ (render_module_2 t s).2.module = 3 := by
  unfold render_module_2
  dsimp only
  repeat' split
  all_goals simp

theorem render_module_3_module (t : String) (s : SessionState) :
    (render_module_3 t s).2.module = s.module := by
  unfold render_module_3
  dsimp only
  repeat' split
  all_goals simp

/-- The shape of the invariant behind the bound on `quiz_correct`: each of
the two quiz branches fires at most once because it also advances `module`
past itself and `module` never regresses. -/
def QuizInv (s : SessionState) : Prop :=
  (s.module ≤ 1 → s.quiz_correct = 0) ∧ (s.module = 2 → s.quiz_correct ≤ 1) ∧
    s.quiz_correct ≤ 2

theorem quizInv_route (t : String) (s : SessionState) (h : QuizInv s) :
    QuizInv (route t s).2 := by
  unfold QuizInv at h ⊢
  unfold route render_module_1 render_module_2 render_module_3
  dsimp only
  repeat' split
  all_goals simp_all

theorem badges_nodup_route (t : String) (s : SessionState) (h : s.badges.Nodup) :
    (route t s).2.badges.Nodup := by
  unfold route render_module_1 render_module_2 render_module_3
  dsimp only
  repeat' split
  all_goals first
    | exact h
    | exact badge_nodup _ _ _ h

/-- The `"B"` answer at the module-1 quiz: both sides of the branch reduce
definitionally (the quiz branch of main.py lines 195-214 with `txt = "b"`). -/
theorem render_module_1_B (s : SessionState) :
    render_module_1 "B" s =
      ("Correct! 🎉\n\n**Progress saved.** Moving to **Module 2: Prompting Basics**.\nType anything to continue.",
        { s with progress := max s.progress 50, module := 2,
                 quiz_correct := s.quiz_correct + 1 }) := rfl

/-- The `"A"` answer at the module-1 quiz (wrong answer: no increment). -/
theorem render_module_1_A (s : SessionState) :
    render_module_1 "A" s =
      ("Good try — the best answer is **B**.\n\n**Progress saved.** Moving to **Module 2: Prompting Basics**.\nType anything to continue.",
        { s with progress := max s.progress 50, module := 2 }) := rfl

/-- The `"done"` input at module 3 once past the intro threshold
(main.py lines 271-284). -/
theorem render_module_3_done (s : SessionState) (h : ¬ s.progress < 90) :
    render_module_3 "done" s =
      ("👏 Nicely done. You've completed the free track!\n\n## 🔒 Locked Level: Applied AI Playbooks\n- 12 advanced prompt frameworks\n- Case studies + templates\n- Certificate + full Report Card\n\n👉 **Unlock via the AI Learning Academy:** [Enroll to unlock](https://example.com/enroll)\n\n### Report Card (Preview)\n" ++
          conceptsLine s.quiz_correct ++ "\n" ++ promptCraftLine s.quiz_correct ++
          "\n- Applied Practice: ★★★☆☆\n- Consistency: ★★☆☆☆\n\n_Enter your email to receive your badges + preview report & a limited-time coupon._",
        progress_to 100 s) := by
  unfold render_module_3
  rw [if_neg h]
  rfl

/-! ### The claims about the dialogue engine -/

/-- C3: every `route` call leaves `progress` no smaller than before, and
`progress` stays within 0..100 (the lower bound is inherent in `ℕ`). -/
theorem c3_progress_monotone_bounded (t : String) (s : SessionState)
    (h : s.progress ≤ 100) :
    s.progress ≤ (route t s).2.progress ∧ (route t s).2.progress ≤ 100 := by
  have hr := route_progress t s
  omega

theorem c3_progress_monotone_bounded_witness :
    init_state.progress ≤ 100 ∧
      (init_state.progress ≤ (route "begin" init_state).2.progress ∧
        (route "begin" init_state).2.progress ≤ 100) :=
  ⟨by decide, c3_progress_monotone_bounded "begin" init_state (by decide)⟩

/-- C4 counterexample: from the welcome state (`module = 0`) the single
input `"b"` takes `module` from 0 to 2 in one `route` call — the router
first sets `module = 1` and then the module-1 handler's quiz branch sets
`module = 2` — so the claim that each call changes `module` by exactly 0
or +1 is false. -/
theorem c4_module_jump_counterexample :
    ¬((route "b" init_state).2.module = init_state.module ∨
      (route "b" init_state).2.module = init_state.module + 1) := by decide

/-- C4 amended: `module` never decreases and never exceeds 3; from
`module ≥ 1` a call changes it by exactly 0 or +1; from `module = 0` a
call sets it to 1 and may advance once more to 2 within the same call. -/
theorem c4_module_forward_bounded (t : String) (s : SessionState) (h : s.module ≤ 3) :
    (route t s).2.module ≤ 3 ∧ s.module ≤ (route t s).2.module ∧
      (1 ≤ s.module →
        (route t s).2.module = s.module ∨ (route t s).2.module = s.module + 1) ∧
      (s.module = 0 → (route t s).2.module = 1 ∨ (route t s).2.module = 2) := by
  have h1 := render_module_1_module t { s with module := 1 }
  have h1' := render_module_1_module t s
  have h2 := render_module_2_module t s
  have h3 := render_module_3_module t s
  unfold route
  dsimp only
  repeat' split
  all_goals simp_all
  all_goals omega

theorem c4_module_forward_bounded_witness :
    init_state.module ≤ 3 ∧
      ((route "b" init_state).2.module ≤ 3 ∧
        init_state.module ≤ (route "b" init_state).2.module ∧
        (1 ≤ init_state.module →
          (route "b" init_state).2.module = init_state.module ∨
            (route "b" init_state).2.module = init_state.module + 1) ∧
        (init_state.module = 0 →
          (route "b" init_state).2.module = 1 ∨ (route "b" init_state).2.module = 2)) :=
  ⟨by decide, c4_module_forward_bounded "b" init_state (by decide)⟩

/-- C5: a `route` call preserves freedom from duplicate badge labels:
`badge` appends only labels not already present, and no handler removes
or rewrites badges, so no sequence of calls can create a duplicate. -/
theorem c5_badges_no_duplicates (t : String) (s : SessionState)
    (h : s.badges.Nodup) : (route t s).2.badges.Nodup :=
  badges_nodup_route t s h

theorem c5_badges_no_duplicates_witness :
    init_state.badges.Nodup ∧ (route "begin" init_state).2.badges.Nodup :=
  ⟨by decide, c5_badges_no_duplicates "begin" init_state (by decide)⟩

/-- C6: in a fresh session at module 1, the input `"begin"` raises
progress to at least 20, puts the "Concept Spark" badge (stored with its
emoji prefix, so a label containing "Concept Spark") into the badge list,
and leaves `module` at 1. -/
theorem c6_begin_module1 :
    20 ≤ (route "begin" { init_state with module := 1 }).2.progress ∧
      (∃ p, (p ++ "Concept Spark") ∈ (route "begin" { init_state with module := 1 }).2.badges) ∧
      (route "begin" { init_state with module := 1 }).2.module = 1 :=
  ⟨by decide, ⟨"🏅 ", by decide⟩, by decide⟩

/-- C7: at module 1 with progress ≥ 40, answering `"B"` increments
`quiz_correct` by exactly 1, makes progress at least 50 and moves to
module 2; answering `"A"` leaves `quiz_correct` unchanged with the same
progress and module transition. -/
theorem c7_quiz_answer_module1 (s : SessionState) (hm : s.module = 1)
    (hp : 40 ≤ s.progress) :
    (route "B" s).2.quiz_correct = s.quiz_correct + 1 ∧
      50 ≤ (route "B" s).2.progress ∧ (route "B" s).2.module = 2 ∧
      (route "A" s).2.quiz_correct = s.quiz_correct ∧
      50 ≤ (route "A" s).2.progress ∧ (route "A" s).2.module = 2 := by
  unfold route
  simp only [hm, render_module_1_B, render_module_1_A]
  norm_num

theorem c7_quiz_answer_module1_witness :
    ({ init_state with module := 1, progress := 40 } : SessionState).module = 1 ∧
      40 ≤ ({ init_state with module := 1, progress := 40 } : SessionState).progress ∧
      ((route "B" { init_state with module := 1, progress := 40 }).2.quiz_correct =
          ({ init_state with module := 1, progress := 40 } : SessionState).quiz_correct + 1 ∧
        50 ≤ (route "B" { init_state with module := 1, progress := 40 }).2.progress ∧
        (route "B" { init_state with module := 1, progress := 40 }).2.module = 2 ∧
        (route "A" { init_state with module := 1, progress := 40 }).2.quiz_correct =
          ({ init_state with module := 1, progress := 40 } : SessionState).quiz_correct ∧
        50 ≤ (route "A" { init_state with module := 1, progress := 40 }).2.progress ∧
        (route "A" { init_state with module := 1, progress := 40 }).2.module = 2) :=
  ⟨by decide, by decide,
    c7_quiz_answer_module1 { init_state with module := 1, progress := 40 } (by decide) (by decide)⟩

/-- C10: along every input sequence from the fresh session, `quiz_correct`
never exceeds 2: each quiz branch advances `module` past itself and
`module` never regresses, so each of the two increments fires at most
once. -/
theorem c10_quiz_correct_le_two (inputs : List String) :
    (run inputs).quiz_correct ≤ 2 := by
  have key : ∀ (l : List String) (s : SessionState), QuizInv s →
      QuizInv (l.foldl (fun s t => (route t s).2) s) := by
    intro l
    induction l with
    | nil => exact fun s h => h
    | cons a l ih => exact fun s h => ih _ (quizInv_route a s h)
  exact (key inputs init_state (by refine ⟨fun _ => rfl, fun _ => ?_, ?_⟩ <;> exact Nat.zero_le _)).2.2

/-- C8: at module 3 with progress in 95..100, `"done"` sets progress to
exactly 100 and returns the report card, whose first category line shows
`min(5, 3 + quiz_correct)` filled stars with the remainder of 5 empty and
whose second category line shows `min(5, 2 + quiz_correct)` filled stars
with the remainder empty; at `quiz_correct = 0` that is 3 filled/2 empty
and 2 filled/3 empty, and at `quiz_correct = 2` it is 5 filled/0 empty and
4 filled/1 empty. -/
theorem c8_done_report_card (s : SessionState) (hm : s.module = 3)
    (hp : 95 ≤ s.progress) (hp' : s.progress ≤ 100) :
    (route "done" s).2.progress = 100 ∧
      (∃ pre mid post, (route "done" s).1 =
        pre ++ conceptsLine s.quiz_correct ++ mid ++ promptCraftLine s.quiz_correct ++ post) ∧
      conceptsLine s.quiz_correct =
        "- Concepts: " ++ stars '★' (min 5 (3 + s.quiz_correct)) ++
          stars '☆' (5 - min 5 (3 + s.quiz_correct)) ∧
      promptCraftLine s.quiz_correct =
        "- Prompt Craft: " ++ stars '★' (min 5 (2 + s.quiz_correct)) ++
          stars '☆' (5 - min 5 (2 + s.quiz_correct)) ∧
      conceptsLine 0 = "- Concepts: ★★★☆☆" ∧ conceptsLine 2 = "- Concepts: ★★★★★" ∧
      promptCraftLine 0 = "- Prompt Craft: ★★☆☆☆" ∧
      promptCraftLine 2 = "- Prompt Craft: ★★★★☆" := by
  have hroute : route "done" s = render_module_3 "done" s := by
    unfold route
    simp [hm]
  have hdone := render_module_3_done s (by omega)
  rw [hroute, hdone]
  refine ⟨by simp; omega,
    ⟨"👏 Nicely done. You've completed the free track!\n\n## 🔒 Locked Level: Applied AI Playbooks\n- 12 advanced prompt frameworks\n- Case studies + templates\n- Certificate + full Report Card\n\n👉 **Unlock via the AI Learning Academy:** [Enroll to unlock](https://example.com/enroll)\n\n### Report Card (Preview)\n",
      "\n",
      "\n- Applied Practice: ★★★☆☆\n- Consistency: ★★☆☆☆\n\n_Enter your email to receive your badges + preview report & a limited-time coupon._",
      rfl⟩,
    ?_, ?_, by decide, by decide, by decide, by decide⟩
  · unfold conceptsLine
    rw [show Int.toNat (max 0 (5 - (3 + (s.quiz_correct : ℤ)))) =
      5 - min 5 (3 + s.quiz_correct) by omega]
  · unfold promptCraftLine
    rw [show Int.toNat (max 0 (5 - (2 + (s.quiz_correct : ℤ)))) =
      5 - min 5 (2 + s.quiz_correct) by omega]

theorem c8_done_report_card_witness :
    ({ init_state with module := 3, progress := 95 } : SessionState).module = 3 ∧
      95 ≤ ({ init_state with module := 3, progress := 95 } : SessionState).progress ∧
      ({ init_state with module := 3, progress := 95 } : SessionState).progress ≤ 100 ∧
      ((route "done" { init_state with module := 3, progress := 95 }).2.progress = 100 ∧
        (∃ pre mid post, (route "done" { init_state with module := 3, progress := 95 }).1 =
          pre ++ conceptsLine ({ init_state with module := 3, progress := 95 } : SessionState).quiz_correct ++ mid ++
            promptCraftLine ({ init_state with module := 3, progress := 95 } : SessionState).quiz_correct ++ post) ∧
        conceptsLine ({ init_state with module := 3, progress := 95 } : SessionState).quiz_correct =
          "- Concepts: " ++
            stars '★' (min 5 (3 + ({ init_state with module := 3, progress := 95 } : SessionState).quiz_correct)) ++
            stars '☆' (5 - min 5 (3 + ({ init_state with module := 3, progress := 95 } : SessionState).quiz_correct)) ∧
        promptCraftLine ({ init_state with module := 3, progress := 95 } : SessionState).quiz_correct =
          "- Prompt Craft: " ++
            stars '★' (min 5 (2 + ({ init_state with module := 3, progress := 95 } : SessionState).quiz_correct)) ++
            stars '☆' (5 - min 5 (2 + ({ init_state with module := 3, progress := 95 } : SessionState).quiz_correct)) ∧
        conceptsLine 0 = "- Concepts: ★★★☆☆" ∧ conceptsLine 2 = "- Concepts: ★★★★★" ∧
        promptCraftLine 0 = "- Prompt Craft: ★★☆☆☆" ∧
        promptCraftLine 2 = "- Prompt Craft: ★★★★☆") :=
  ⟨by decide, by decide, by decide,
    c8_done_report_card { init_state with module := 3, progress := 95 }
      (by decide) (by decide) (by decide)⟩

theorem cacheLookup_cacheInsert (key val : String) (c : List (String × String)) :
    cacheLookup key (cacheInsert key val c) = some val := by
  induction c with
  | nil => simp [cacheInsert, cacheLookup]
  | cons kv t ih =>
    obtain ⟨k, v⟩ := kv
    unfold cacheInsert
    split
    · next hk => simp [cacheLookup, hk]
    · next hk => simp [cacheLookup, hk, ih]

theorem gemini_reply_hit (provider : ProviderOutcome) (now temp : ℚ) (prompt : String)
    (ck : Option String) (s : AIState) (v : String)
    (h : cacheLookup (effKey ck prompt) s.gemini_cache = some v) :
    gemini_reply provider now prompt temp ck s = ⟨v, s, false⟩ := by
  simp [gemini_reply, h]

theorem gemini_reply_unconfigured (provider : ProviderOutcome) (now temp : ℚ)
    (prompt : String) (ck : Option String) (s : AIState)
    (hmiss : cacheLookup (effKey ck prompt) s.gemini_cache = none)
    (h : s.gemini_ready = false) :
    gemini_reply provider now prompt temp ck s =
      ⟨"(Hint unavailable: Gemini key not configured.)", s, false⟩ := by
  simp [gemini_reply, hmiss, h]

theorem gemini_reply_cooldown (provider : ProviderOutcome) (now temp : ℚ)
    (prompt : String) (ck : Option String) (s : AIState)
    (hmiss : cacheLookup (effKey ck prompt) s.gemini_cache = none)
    (hready : s.gemini_ready = true) (hcool : now < s.next_hint_ok_ts) :
    gemini_reply provider now prompt temp ck s =
      ⟨"(Cooling down " ++ toString (pyInt (s.next_hint_ok_ts - now)) ++
          "s to respect free-tier limits…)", s, false⟩ := by
  simp [gemini_reply, hmiss, hready, hcool]

theorem gemini_reply_stores (provider : ProviderOutcome) (now temp : ℚ)
    (prompt : String) (ck : Option String) (s : AIState)
    (hmiss : cacheLookup (effKey ck prompt) s.gemini_cache = none)
    (hready : s.gemini_ready = true) (hcool : ¬ now < s.next_hint_ok_ts) :
    cacheLookup (effKey ck prompt)
        (gemini_reply provider now prompt temp ck s).state.gemini_cache =
      some (gemini_reply provider now prompt temp ck s).text ∧
    (gemini_reply provider now prompt temp ck s).invoked = true := by
  cases provider with
  | success t =>
    simp [gemini_reply, hmiss, hready, hcool, cacheLookup_cacheInsert]
  | failure msg =>
    by_cases h429 : (strContains msg "429" || strContains (pyLower msg) "rate") = true
    · simp [gemini_reply, hmiss, hready, hcool, h429, cacheLookup_cacheInsert]
    · simp only [Bool.not_eq_true] at h429
      simp [gemini_reply, hmiss, hready, hcool, h429, cacheLookup_cacheInsert]

theorem gemini_reply_invoked_lookup (provider : ProviderOutcome) (now temp : ℚ)
    (prompt : String) (ck : Option String) (s : AIState)
    (h : (gemini_reply provider now prompt temp ck s).invoked = true) :
    cacheLookup (effKey ck prompt)
        (gemini_reply provider now prompt temp ck s).state.gemini_cache =
      some (gemini_reply provider now prompt temp ck s).text := by
  by_cases hmiss : cacheLookup (effKey ck prompt) s.gemini_cache = none
  · by_cases hready : s.gemini_ready = true
    · by_cases hcool : now < s.next_hint_ok_ts
      · rw [gemini_reply_cooldown provider now temp prompt ck s hmiss hready hcool] at h
        exact absurd h (by simp)
      · exact (gemini_reply_stores provider now temp prompt ck s hmiss hready hcool).1
    · rw [gemini_reply_unconfigured provider now temp prompt ck s hmiss
        (by revert hready; cases s.gemini_ready <;> simp)] at h
      exact absurd h (by simp)
  · obtain ⟨v, hv⟩ := Option.ne_none_iff_exists'.mp hmiss
    rw [gemini_reply_hit provider now temp prompt ck s v hv] at h
    exact absurd h (by simp)

/-- C9: with the key absent from the cache, the client configured, and the
call arriving strictly before `next_hint_ok_ts`, `gemini_reply` returns the
cooldown sentinel embedding the remaining wait truncated to whole seconds,
and the external provider is not invoked. -/
theorem c9_cooldown_sentinel (provider : ProviderOutcome) (now temp : ℚ)
    (prompt : String) (ck : Option String) (s : AIState)
    (hmiss : cacheLookup (effKey ck prompt) s.gemini_cache = none)
    (hready : s.gemini_ready = true) (hcool : now < s.next_hint_ok_ts) :
    (gemini_reply provider now prompt temp ck s).text =
      "(Cooling down " ++ toString (pyInt (s.next_hint_ok_ts - now)) ++
        "s to respect free-tier limits…)" ∧
    (gemini_reply provider now prompt temp ck s).invoked = false := by
  rw [gemini_reply_cooldown provider now temp prompt ck s hmiss hready hcool]
  exact ⟨rfl, rfl⟩

theorem c9_cooldown_sentinel_witness :
    cacheLookup (effKey (some "k") "p") (AIState.mk [] true 10).gemini_cache = none ∧
      (AIState.mk [] true 10).gemini_ready = true ∧
      (3 : ℚ) < (AIState.mk [] true 10).next_hint_ok_ts ∧
      ((gemini_reply (.success "x") 3 "p" 1 (some "k") (AIState.mk [] true 10)).text =
        "(Cooling down " ++ toString (pyInt ((AIState.mk [] true 10).next_hint_ok_ts - 3)) ++
          "s to respect free-tier limits…)" ∧
      (gemini_reply (.success "x") 3 "p" 1 (some "k") (AIState.mk [] true 10)).invoked = false) :=
  ⟨rfl, rfl, by norm_num,
    c9_cooldown_sentinel (.success "x") 3 1 "p" (some "k") (AIState.mk [] true 10)
      rfl rfl (by norm_num)⟩

/-- C1 counterexample: an unconfigured client (`gemini_ready = false`) with
an empty cache returns the unavailability sentinel without storing it: the
cache lookup after the call still misses, refuting "stored for every
outcome". (The cooldown sentinel at lines 58-63 is likewise returned
before the store at line 83.) -/
theorem c1_sentinel_not_stored_counterexample :
    cacheLookup (effKey none "p") (AIState.mk [] false 0).gemini_cache = none ∧
      ¬(cacheLookup (effKey none "p")
          (gemini_reply (.success "x") 0 "p" 1 none (AIState.mk [] false 0)).state.gemini_cache =
        some (gemini_reply (.success "x") 0 "p" 1 none (AIState.mk [] false 0)).text) := by
  decide

/-- C1 amended: on a cache miss the returned string is stored under the key
before returning for the provider outcomes (success and both failure
sentinels); the unconfigured and cooldown sentinels are returned early,
with the session state (hence the cache) unchanged. -/
theorem c1_provider_outcomes_cached (provider : ProviderOutcome) (now temp : ℚ)
    (prompt : String) (ck : Option String) (s : AIState)
    (hmiss : cacheLookup (effKey ck prompt) s.gemini_cache = none) :
    (s.gemini_ready = true → ¬ now < s.next_hint_ok_ts →
      cacheLookup (effKey ck prompt)
          (gemini_reply provider now prompt temp ck s).state.gemini_cache =
        some (gemini_reply provider now prompt temp ck s).text) ∧
    (s.gemini_ready = false → (gemini_reply provider now prompt temp ck s).state = s) ∧
    (s.gemini_ready = true → now < s.next_hint_ok_ts →
      (gemini_reply provider now prompt temp ck s).state = s) := by
  refine ⟨fun hready hcool =>
    (gemini_reply_stores provider now temp prompt ck s hmiss hready hcool).1,
    fun hnr => ?_, fun hready hcool => ?_⟩
  · rw [gemini_reply_unconfigured provider now temp prompt ck s hmiss hnr]
  · rw [gemini_reply_cooldown provider now temp prompt ck s hmiss hready hcool]

theorem c1_provider_outcomes_cached_witness :
    cacheLookup (effKey (some "k") "p") (AIState.mk [] true 0).gemini_cache = none ∧
      (((AIState.mk [] true 0).gemini_ready = true → ¬ (0 : ℚ) < (AIState.mk [] true 0).next_hint_ok_ts →
        cacheLookup (effKey (some "k") "p")
            (gemini_reply (.success "x") 0 "p" 1 (some "k") (AIState.mk [] true 0)).state.gemini_cache =
          some (gemini_reply (.success "x") 0 "p" 1 (some "k") (AIState.mk [] true 0)).text) ∧
      ((AIState.mk [] true 0).gemini_ready = false →
        (gemini_reply (.success "x") 0 "p" 1 (some "k") (AIState.mk [] true 0)).state =
          AIState.mk [] true 0) ∧
      ((AIState.mk [] true 0).gemini_ready = true → (0 : ℚ) < (AIState.mk [] true 0).next_hint_ok_ts →
        (gemini_reply (.success "x") 0 "p" 1 (some "k") (AIState.mk [] true 0)).state =
          AIState.mk [] true 0)) :=
  ⟨rfl, c1_provider_outcomes_cached (.success "x") 0 1 "p" (some "k") (AIState.mk [] true 0) rfl⟩

/-- C2 counterexample: with an empty cache, a configured client and
`next_hint_ok_ts = 10`, two successive calls with the same cache key made
at times 3 and 5 both hit the cooldown path and return different sentinel
texts ("7s" versus "5s" remaining), refuting byte-identical results. -/
theorem c2_identical_text_counterexample :
    ¬((gemini_reply (.success "x") 3 "p" 1 (some "k") (AIState.mk [] true 10)).text =
      (gemini_reply (.success "x") 5 "p" 1 (some "k")
        (gemini_reply (.success "x") 3 "p" 1 (some "k") (AIState.mk [] true 10)).state).text) := by
  have e1 := gemini_reply_cooldown (.success "x") 3 1 "p" (some "k") (AIState.mk [] true 10)
    rfl rfl (by norm_num)
  rw [e1]
  dsimp only
  have e2 := gemini_reply_cooldown (.success "x") 5 1 "p" (some "k") (AIState.mk [] true 10)
    rfl rfl (by norm_num)
  rw [e2]
  dsimp only
  rw [show ((10 : ℚ) - 3) = 7 by norm_num, show ((10 : ℚ) - 5) = 5 by norm_num]
  decide

/-- C2 amended: across two successive calls with the same effective cache
key the provider is invoked at most once; moreover, whenever the first
call did invoke the provider, the second call returns byte-identical text
from the cache without invoking the provider. (When the first call
returned an uncached sentinel — cooldown or unconfigured — the texts may
differ, as the counterexample shows.) -/
theorem c2_at_most_one_provider_call (p1 p2 : ProviderOutcome) (n1 n2 t1 t2 : ℚ)
    (pr1 pr2 : String) (ck : Option String) (s : AIState)
    (hkey : effKey ck pr1 = effKey ck pr2) :
    ¬((gemini_reply p1 n1 pr1 t1 ck s).invoked = true ∧
      (gemini_reply p2 n2 pr2 t2 ck (gemini_reply p1 n1 pr1 t1 ck s).state).invoked = true) ∧
    ((gemini_reply p1 n1 pr1 t1 ck s).invoked = true →
      (gemini_reply p2 n2 pr2 t2 ck (gemini_reply p1 n1 pr1 t1 ck s).state).text =
        (gemini_reply p1 n1 pr1 t1 ck s).text ∧
      (gemini_reply p2 n2 pr2 t2 ck (gemini_reply p1 n1 pr1 t1 ck s).state).invoked = false) := by
  have main : (gemini_reply p1 n1 pr1 t1 ck s).invoked = true →
      gemini_reply p2 n2 pr2 t2 ck (gemini_reply p1 n1 pr1 t1 ck s).state =
        ⟨(gemini_reply p1 n1 pr1 t1 ck s).text,
          (gemini_reply p1 n1 pr1 t1 ck s).state, false⟩ := by
    intro h1
    have hs := gemini_reply_invoked_lookup p1 n1 t1 pr1 ck s h1
    exact gemini_reply_hit p2 n2 t2 pr2 ck _ _ (hkey ▸ hs)
  constructor
  · rintro ⟨h1, h2⟩
    rw [main h1] at h2
    exact absurd h2 (by simp)
  · intro h1
    rw [main h1]
    exact ⟨rfl, rfl⟩

theorem c2_at_most_one_provider_call_witness :
    effKey (some "k") "p" = effKey (some "k") "p" ∧
      (¬((gemini_reply (.success "x") 0 "p" 1 (some "k") (AIState.mk [] true 0)).invoked = true ∧
        (gemini_reply (.success "y") 1 "p" 1 (some "k")
          (gemini_reply (.success "x") 0 "p" 1 (some "k") (AIState.mk [] true 0)).state).invoked = true) ∧
      ((gemini_reply (.success "x") 0 "p" 1 (some "k") (AIState.mk [] true 0)).invoked = true →
        (gemini_reply (.success "y") 1 "p" 1 (some "k")
          (gemini_reply (.success "x") 0 "p" 1 (some "k") (AIState.mk [] true 0)).state).text =
          (gemini_reply (.success "x") 0 "p" 1 (some "k") (AIState.mk [] true 0)).text ∧
        (gemini_reply (.success "y") 1 "p" 1 (some "k")
          (gemini_reply (.success "x") 0 "p" 1 (some "k") (AIState.mk [] true 0)).state).invoked = false)) :=
  ⟨rfl, c2_at_most_one_provider_call (.success "x") (.success "y") 0 1 1 1 "p" "p"
    (some "k") (AIState.mk [] true 0) rfl⟩

end GamefiedFlow
